import Mathlib

/-!
Shallow embedding of the AI Update Radar dashboard's API routes and page
logic (Next.js / TypeScript), restricted to the parts the verified claims
are about: the artifact fetch route, the rerun route, the fix-task route,
the runs listing route, the batch task submission route, the relay health
check, and the release detail page's source classification.

JavaScript string primitives `startsWith` / `endsWith` are modelled as
prefix / suffix tests on the string's character list, which is their
semantics for the ASCII-only strings involved.
-/

/-- Models JS `s.startsWith(pre)`: `pre` is a prefix of `s` character by character. -/
def jsStartsWith (s pre : String) : Bool :=
  pre.data.isPrefixOf s.data

/-- Models JS `s.endsWith(suf)`: `suf` is a suffix of `s` character by character. -/
def jsEndsWith (s suf : String) : Bool :=
  suf.data.isSuffixOf s.data

/-! ## Artifact fetch route: GET /runs/[run_id]/artifacts/[filename] -/

/-- Outcome of the backend `fetch` for an artifact, as observed by the route:
either an ok response whose text is the artifact content, or a non-ok
response with its HTTP status. -/
inductive BackendFetch where
  | ok (content : String)
  | err (status : Nat)
deriving DecidableEq

/-- An HTTP response produced by the artifacts route: status, body text and
the Content-Type header when one is set explicitly. -/
structure ArtifactResponse where
  status : Nat
  body : String
  contentType : Option String
deriving DecidableEq

/-- The route's allow-list: `const allowed = ["patch.diff", "stdout.log",
"stderr.log", "result.json"]`. -/
def allowed : List String :=
  ["patch.diff", "stdout.log", "stderr.log", "result.json"]

/-- The route's Content-Type decision: `application/json` for names ending in
`.json`, `text/x-diff` for names ending in `.diff`, `text/plain` otherwise. -/
def contentTypeFor (filename : String) : String :=
  if jsEndsWith filename ".json" then "application/json"
  else if jsEndsWith filename ".diff" then "text/x-diff"
  else "text/plain"

/-- The artifacts route. Returns the HTTP response together with a flag that
is true iff the backend fetch was performed. The allow-list check happens
before any fetch; a disallowed name yields a 400 `Invalid filename` JSON
error without touching the backend. -/
def artifactsRoute (filename : String) (backend : BackendFetch) :
    ArtifactResponse × Bool :=
  if allowed.contains filename then
    match backend with
    | .ok content =>
        ({ status := 200, body := content,
           contentType := some (contentTypeFor filename) }, true)
    | .err s =>
        ({ status := s, body := "File not found", contentType := none }, true)
  else
    ({ status := 400, body := "Invalid filename", contentType := none }, false)

/-! ## Runs listing route: GET /api/runs -/

/-- The query parameters a caller may supply to the runs listing route, as
`searchParams.get` sees them (`none` = absent). The seven filters named by
the spec's endpoint are all present so that claims about any of them can be
stated. -/
structure RunsQuery where
  limit : Option String
  cursor : Option String
  status : Option String
  trace_id : Option String
  provider : Option String
  model : Option String
  since : Option String
deriving DecidableEq

/-- Models `if (v) params.set(n, v)`: the pair is emitted only when the value
is present and non-empty (JS truthiness on strings). -/
def setIfTruthy (n : String) (v : Option String) : List (String × String) :=
  match v with
  | none => []
  | some s => if s == "" then [] else [(n, s)]

/-- The query string the runs listing route builds and forwards to the
backend `GET /runs` call, in the order the code sets the parameters. The
route reads only `limit`, `cursor`, `status`, `trace_id` and `since` from the
incoming request. -/
def forwardedRunsParams (q : RunsQuery) : List (String × String) :=
  setIfTruthy "limit" q.limit ++ setIfTruthy "cursor" q.cursor ++
  setIfTruthy "status" q.status ++ setIfTruthy "trace_id" q.trace_id ++
  setIfTruthy "since" q.since

/-! ## Rerun route: POST /runs/[run_id]/rerun -/

/-- The alphabet `const chars = "abcdefghijklmnopqrstuvwxyz0123456789"` of
`generateRandomId`. -/
def chars : List Char :=
  "abcdefghijklmnopqrstuvwxyz0123456789".data

/-- The helper `generateRandomId`: builds a string of `len` characters, each picked from
`chars` at a pseudo-random index. The random source is modelled as a
function `rand` giving the raw draw at each loop iteration; the code's
`Math.floor(Math.random() * chars.length)` always lands in `[0, 36)`, which
the model expresses as `rand i % 36`. -/
def generateRandomId (rand : Nat → Nat) (len : Nat) : String :=
  String.mk ((List.range len).map (fun i => chars.getD (rand i % 36) 'a'))

/-- The original task payload fields the rerun route reads
(`payload.user_id`, `payload.target`, `payload.content`,
`payload.project_root`). -/
structure TaskPayload where
  user_id : String
  target : String
  content : String
  project_root : String
deriving DecidableEq

/-- Outcome of the `GET /runs/[run_id]/task` fetch: the parsed payload on an
ok response, or the upstream status and error body text otherwise. -/
inductive TaskFetch where
  | ok (payload : TaskPayload)
  | err (status : Nat) (body : String)
deriving DecidableEq

/-- The JSON body the rerun route posts to `POST /tasks`. -/
structure SubmitBody where
  user_id : String
  target : String
  content : String
  project_root : String
  trace_id : String
  parent_run_id : String
deriving DecidableEq

/-- Outcome of the `POST /tasks` submission fetch. -/
inductive SubmitOutcome where
  | ok (task_id : String)
  | err (status : Nat) (body : String)
deriving DecidableEq

/-- The JSON response of the rerun route: the success body
`{success, task_id, trace_id, parent_run_id}`, or an error body with the
forwarded upstream status. -/
inductive RerunResponse where
  | success (task_id : String) (trace_id : String) (parent_run_id : String)
  | failure (status : Nat) (error : String)
deriving DecidableEq

/-- The rerun route. Returns the HTTP-level response together with the task
submission that was posted to the backend, if any (`none` = no submission
performed). Mirrors the code: fetch the original task, on failure forward
the upstream status with the error body embedded; otherwise mint
`tr_rerun_<run_id>_<generateRandomId()>`, post the new task carrying
`parent_run_id = run_id`, and forward a submission failure the same way. -/
def rerunRoute (run_id : String) (rand : Nat → Nat) (fetchTask : TaskFetch)
    (submit : SubmitBody → SubmitOutcome) : RerunResponse × Option SubmitBody :=
  match fetchTask with
  | .err s b => (.failure s ("Failed to get original task: " ++ b), none)
  | .ok payload =>
    let newTraceId := "tr_rerun_" ++ run_id ++ "_" ++ generateRandomId rand 8
    let body : SubmitBody :=
      { user_id := payload.user_id, target := payload.target,
        content := payload.content, project_root := payload.project_root,
        trace_id := newTraceId, parent_run_id := run_id }
    match submit body with
    | .err s e => (.failure s ("Failed to submit task: " ++ e), some body)
    | .ok task_id => (.success task_id newTraceId run_id, some body)

/-- A character allowed in the random suffix: lowercase ASCII letter or
ASCII digit, i.e. the base-36 alphabet `[a-z0-9]`. -/
def isBase36Char (c : Char) : Bool :=
  (decide (97 ≤ c.toNat) && decide (c.toNat ≤ 122)) ||
  (decide (48 ≤ c.toNat) && decide (c.toNat ≤ 57))

/-! ## Fix-task route: POST /runs/[run_id]/fix-task -/

/-- The backend call the fix-task route makes: the run id in the URL and the
JSON body (modelled as a list of key/value pairs; the empty list is the
empty object `{}`). -/
structure FixTaskCall where
  run_id : String
  body : List (String × String)
deriving DecidableEq

/-- Outcome of the backend `POST /runs/[run_id]/fix-task` fetch. -/
inductive BackendReply where
  | ok (data : String)
  | err (status : Nat) (body : String)
deriving DecidableEq

/-- The JSON response of the fix-task route. -/
inductive FixTaskResponse where
  | ok (data : String)
  | relayError (status : Nat) (error : String)
deriving DecidableEq

/-- How the fix-task route turns the backend reply into its own response:
forward ok data, or forward the upstream status with the error text embedded
in a `Relay API error:` message. -/
def fixTaskRespond : BackendReply → FixTaskResponse
  | .ok d => .ok d
  | .err s e => .relayError s ("Relay API error: " ++ e)

/-- The fix-task route. `parsedBody` is the result of `request.json()`
(`none` = missing or malformed body, which the code catches and replaces by
`{}`). Returns the response together with the backend call that was made;
the call is always made, with the effective body. -/
def fixTaskRoute (run_id : String) (parsedBody : Option (List (String × String)))
    (backend : FixTaskCall → BackendReply) : FixTaskResponse × FixTaskCall :=
  let body := parsedBody.getD []
  let call : FixTaskCall := { run_id := run_id, body := body }
  (fixTaskRespond (backend call), call)

/-! ## Batch submission route: POST /api/submit-tasks -/

/-- An action item of the batch submission request body. -/
structure ActionItem where
  task : String
  source_feature : String
  priority : Nat
  project : String
  category : String
deriving DecidableEq

/-- Outcome of the per-item `POST /tasks` fetch inside the loop: ok with a
task id, a non-ok HTTP response with status and body text, or a thrown
exception with its message. -/
inductive ItemOutcome where
  | ok (task_id : String)
  | httpErr (status : Nat) (body : String)
  | exn (msg : String)
deriving DecidableEq

/-- Whether a per-item outcome counts as a success in the loop. -/
def outcomeOk : ItemOutcome → Bool
  | .ok _ => true
  | .httpErr _ _ => false
  | .exn _ => false

/-- One entry of the `results` array the route returns per item. -/
structure ItemResult where
  task_id : Option String
  success : Bool
  error : Option String
  item : ActionItem
deriving DecidableEq

/-- The loop body: the result entry pushed for one item given its fetch
outcome. A non-ok HTTP response records `HTTP <status>: <body>` as the
error text; an exception records its message. -/
def resultFor (it : ActionItem) : ItemOutcome → ItemResult
  | .ok tid => { task_id := some tid, success := true, error := none, item := it }
  | .httpErr s b =>
      { task_id := none, success := false,
        error := some ("HTTP " ++ toString s ++ ": " ++ b), item := it }
  | .exn m => { task_id := none, success := false, error := some m, item := it }

/-- The JSON response of the batch submission route: a 400 for an empty or
missing item list, or the `{success, results}` body. -/
inductive SubmitTasksResponse where
  | badRequest (error : String)
  | ok (success : Bool) (results : List ItemResult)
deriving DecidableEq

/-- The batch submission route. `submitOne` gives each item's individual
fetch outcome; the loop runs over every item unconditionally and the
top-level `success` flag is `failedCount === 0`. -/
def submitTasksRoute (items : List ActionItem)
    (submitOne : ActionItem → ItemOutcome) : SubmitTasksResponse :=
  if items.isEmpty then .badRequest "No items to submit"
  else
    let results := items.map (fun it => resultFor it (submitOne it))
    .ok ((results.filter (fun r => !r.success)).length == 0) results

/-! ## Relay health check: GET /api/submit-tasks and checkRelay polling -/

/-- The UI's relay connection status type. -/
inductive RelayStatus where
  | checking
  | connected
  | disconnected
deriving DecidableEq

/-- The `relay_api` field the health route returns: `"connected"` when the
backend `/health` fetch was ok, `"unhealthy"` when it answered non-ok, and
`"not_running"` when the fetch threw. -/
def healthRelayApi (backendHealth : Option Bool) : String :=
  match backendHealth with
  | some true => "connected"
  | some false => "unhealthy"
  | none => "not_running"

/-- One `checkRelay` poll: `some relay_api` is the parsed response's
`relay_api` field, `none` a failed fetch or parse (caught). The new status
is `connected` exactly when the field equals `"connected"`, otherwise
`disconnected`. -/
def checkRelayStep (fetched : Option String) : RelayStatus :=
  match fetched with
  | some relay_api => if relay_api == "connected" then .connected else .disconnected
  | none => .disconnected

/-- The relay status after a sequence of polls, starting from the initial
`useState` value `checking`; each poll overwrites the status. -/
def relayStatusAfter (polls : List (Option String)) : RelayStatus :=
  polls.foldl (fun _ r => checkRelayStep r) .checking

/-- The polling interval passed to `setInterval` in milliseconds. -/
def relayPollIntervalMs : Nat := 30000

/-! ## Release detail page: source classification -/

/-- The release detail page's source category. -/
inductive ReleaseSource where
  | claude
  | codex
deriving DecidableEq

/-- The check `const isCodex = version.startsWith("rust-")` of the release page. -/
def isCodex (version : String) : Bool :=
  jsStartsWith version "rust-"

/-- Which data source the release page loads and renders for a version:
`codex` when the version starts with `"rust-"`, `claude` otherwise
(`setSource(isCodex ? "codex" : "claude")`). -/
def releaseSource (version : String) : ReleaseSource :=
  if isCodex version then .codex else .claude

/-! ## Helper lemmas -/

/-- Every character of the random-id alphabet is a lowercase letter or digit. -/
lemma chars_all_base36 : ∀ c ∈ chars, isBase36Char c = true := by decide

/-- A generated random id has exactly the requested length. -/
lemma generateRandomId_length (rand : Nat → Nat) (len : Nat) :
    (generateRandomId rand len).length = len := by
  simp [generateRandomId, String.length]

/-- Every character of a generated random id is drawn from `[a-z0-9]`. -/
lemma generateRandomId_base36 (rand : Nat → Nat) (len : Nat) :
    ∀ c ∈ (generateRandomId rand len).data, isBase36Char c = true := by
  intro c hc
  simp only [generateRandomId] at hc
  obtain ⟨i, hi, rfl⟩ := List.mem_map.mp hc
  have h36 : rand i % 36 < chars.length := Nat.mod_lt _ (by decide)
  rw [List.getD_eq_getElem chars 'a' h36]
  exact chars_all_base36 _ (List.getElem_mem h36)

/-! ## Claim theorems -/

/-- C1: any artifact filename outside the enumerated allow-list is answered
with the 400 `Invalid filename` error and the backend fetch is never
performed, whatever the backend would have answered. -/
theorem artifacts_reject_disallowed (filename : String) (backend : BackendFetch)
    (h : filename ∉ allowed) :
    artifactsRoute filename backend =
      ({ status := 400, body := "Invalid filename", contentType := none }, false) := by
  simp [artifactsRoute, h]

/-- Witness for C1 at the path-traversal name from the spec. -/
theorem artifacts_reject_disallowed_witness :
    ("../etc/passwd" ∉ allowed) ∧
    artifactsRoute "../etc/passwd" (.ok "secret") =
      ({ status := 400, body := "Invalid filename", contentType := none }, false) :=
  ⟨by decide, artifacts_reject_disallowed "../etc/passwd" (.ok "secret") (by decide)⟩

/-- C2: the code's allow-list omits `conversation.jsonl`, so that filename —
which the spec's allow-list includes and which the run detail page itself
fetches — is rejected with the 400 `Invalid filename` error and never
forwarded to the backend. -/
theorem artifacts_conversation_jsonl_rejected :
    ("conversation.jsonl" ∉ allowed) ∧
    artifactsRoute "conversation.jsonl" (.ok "entries") =
      ({ status := 400, body := "Invalid filename", contentType := none }, false) := by
  constructor
  · decide
  · decide

/-- C4: when the original-task fetch fails, the rerun route forwards the
upstream status, embeds the upstream error body in its error message, and
performs no task submission at all. -/
theorem rerun_fetch_failure_forwards_upstream (run_id : String) (rand : Nat → Nat)
    (s : Nat) (b : String) (submit : SubmitBody → SubmitOutcome) :
    rerunRoute run_id rand (.err s b) submit =
      (.failure s ("Failed to get original task: " ++ b), none) := rfl

/-- C6: the runs listing route drops the `provider` and `model` filters its
own callers supply: a request carrying only those two filters forwards an
empty query, while a request carrying all seven forwards exactly the five
`limit`, `cursor`, `status`, `trace_id`, `since` pairs. -/
theorem runs_route_drops_provider_model :
    forwardedRunsParams
      { limit := none, cursor := none, status := none, trace_id := none,
        provider := some "openai", model := some "gpt-4o", since := none } = [] ∧
    forwardedRunsParams
      { limit := some "50", cursor := some "c1", status := some "failed",
        trace_id := some "tr_x", provider := some "openai", model := some "gpt-4o",
        since := some "7d" } =
      [("limit", "50"), ("cursor", "c1"), ("status", "failed"),
       ("trace_id", "tr_x"), ("since", "7d")] := by
  constructor
  · rfl
  · rfl

/-- C9: for an allow-listed filename that the backend returns successfully,
the response is a 200 carrying the artifact text with Content-Type
`application/json` for names ending in `.json`, `text/x-diff` for names
ending in `.diff`, and `text/plain` otherwise. -/
theorem artifacts_success_content_type (filename content : String)
    (h : filename ∈ allowed) :
    (artifactsRoute filename (.ok content)).1 =
      { status := 200, body := content,
        contentType := some (if jsEndsWith filename ".json" then "application/json"
          else if jsEndsWith filename ".diff" then "text/x-diff"
          else "text/plain") } := by
  simp [artifactsRoute, h, contentTypeFor]

/-- Witness for C9 at `result.json`. -/
theorem artifacts_success_content_type_witness :
    ("result.json" ∈ allowed) ∧
    (artifactsRoute "result.json" (.ok "{}")).1 =
      { status := 200, body := "{}", contentType := some "application/json" } := by
  refine ⟨by decide, ?_⟩
  have h := artifacts_success_content_type "result.json" "{}" (by decide)
  simpa using h

/-- C10: a missing or malformed JSON request body never fails the fix-task
route: the body is replaced by the empty object and the fix-task call is
still made against the backend, whose reply alone decides the response. -/
theorem fix_task_malformed_body_still_forwarded (run_id : String)
    (backend : FixTaskCall → BackendReply) :
    fixTaskRoute run_id none backend =
      (fixTaskRespond (backend { run_id := run_id, body := [] }),
       { run_id := run_id, body := [] }) := rfl

/-- C3: every successful rerun of run `R` returns `parent_run_id = R` and a
trace id of the shape `tr_rerun_<R>_<suffix>` with an 8-character suffix
drawn from `[a-z0-9]`, and the task body submitted to the backend carries
exactly that trace id and `parent_run_id = R`. -/
theorem rerun_success_shape (run_id : String) (rand : Nat → Nat)
    (fetchTask : TaskFetch) (submit : SubmitBody → SubmitOutcome)
    (tid tr pr : String) (body : SubmitBody)
    (h : rerunRoute run_id rand fetchTask submit = (.success tid tr pr, some body)) :
    pr = run_id ∧ body.parent_run_id = run_id ∧ body.trace_id = tr ∧
    ∃ suffix : String,
      tr = "tr_rerun_" ++ run_id ++ "_" ++ suffix ∧
      suffix.length = 8 ∧ ∀ c ∈ suffix.data, isBase36Char c = true := by
  cases fetchTask with
  | err s b => simp [rerunRoute] at h
  | ok payload =>
    simp only [rerunRoute] at h
    cases hs : submit
        { user_id := payload.user_id, target := payload.target,
          content := payload.content, project_root := payload.project_root,
          trace_id := "tr_rerun_" ++ run_id ++ "_" ++ generateRandomId rand 8,
          parent_run_id := run_id } with
    | err s2 e2 =>
      rw [hs] at h
      simp at h
    | ok tid2 =>
      rw [hs] at h
      simp only [Prod.mk.injEq, RerunResponse.success.injEq, Option.some.injEq] at h
      obtain ⟨⟨htid, htr, hpr⟩, hbody⟩ := h
      subst hbody
      refine ⟨hpr.symm, rfl, htr, generateRandomId rand 8, htr.symm, ?_, ?_⟩
      · exact generateRandomId_length rand 8
      · exact generateRandomId_base36 rand 8

/-- Witness for C3 with a constant random source, a concrete payload and an
always-succeeding backend. -/
theorem rerun_success_shape_witness :
    ("r1" : String) = "r1" ∧
    ({ user_id := "u", target := "auto", content := "c", project_root := "/p",
       trace_id := "tr_rerun_r1_aaaaaaaa", parent_run_id := "r1" } :
        SubmitBody).parent_run_id = "r1" ∧
    ({ user_id := "u", target := "auto", content := "c", project_root := "/p",
       trace_id := "tr_rerun_r1_aaaaaaaa", parent_run_id := "r1" } :
        SubmitBody).trace_id = "tr_rerun_r1_aaaaaaaa" ∧
    ∃ suffix : String,
      "tr_rerun_r1_aaaaaaaa" = "tr_rerun_" ++ "r1" ++ "_" ++ suffix ∧
      suffix.length = 8 ∧ ∀ c ∈ suffix.data, isBase36Char c = true :=
  rerun_success_shape "r1" (fun _ => 0)
    (.ok { user_id := "u", target := "auto", content := "c", project_root := "/p" })
    (fun _ => .ok "t1") "t1" "tr_rerun_r1_aaaaaaaa" "r1"
    { user_id := "u", target := "auto", content := "c", project_root := "/p",
      trace_id := "tr_rerun_r1_aaaaaaaa", parent_run_id := "r1" } (by decide)

/-- C5: for a non-empty batch, the response carries one result entry per
submitted item in order, each with that item's own success flag, the raw
upstream error text `HTTP <status>: <body>` on an HTTP failure, the
top-level success flag true iff every item succeeded — and every item is
attempted regardless of the other items' failures, since each entry is
determined by that item's own outcome alone. -/
theorem submit_tasks_per_item_results (items : List ActionItem)
    (submitOne : ActionItem → ItemOutcome) (h : items ≠ []) :
    ∃ succ results,
      submitTasksRoute items submitOne = .ok succ results ∧
      results.length = items.length ∧
      (∀ i (hi : i < items.length) (hr : i < results.length),
        (results.get ⟨i, hr⟩).item = items.get ⟨i, hi⟩ ∧
        (results.get ⟨i, hr⟩).success = outcomeOk (submitOne (items.get ⟨i, hi⟩)) ∧
        (∀ s b, submitOne (items.get ⟨i, hi⟩) = .httpErr s b →
          (results.get ⟨i, hr⟩).error = some ("HTTP " ++ toString s ++ ": " ++ b))) ∧
      (succ = true ↔ ∀ r ∈ results, r.success = true) := by
  have hne : items.isEmpty = false := by
    simpa [List.isEmpty_iff] using h
  refine ⟨((items.map (fun it => resultFor it (submitOne it))).filter
      (fun r => !r.success)).length == 0,
    items.map (fun it => resultFor it (submitOne it)), ?_, ?_, ?_, ?_⟩
  · simp [submitTasksRoute, hne]
  · simp
  · intro i hi hr
    have hget : (items.map (fun it => resultFor it (submitOne it))).get ⟨i, hr⟩ =
        resultFor (items.get ⟨i, hi⟩) (submitOne (items.get ⟨i, hi⟩)) := by
      simp [List.get_eq_getElem]
    rw [hget]
    refine ⟨?_, ?_, ?_⟩
    · cases submitOne (items.get ⟨i, hi⟩) <;> rfl
    · cases submitOne (items.get ⟨i, hi⟩) <;> rfl
    · intro s b hsb
      rw [hsb]
      rfl
  · simp [List.length_eq_zero, List.filter_eq_nil_iff]

/-- Witness item list for C5: one item that succeeds and one whose upstream
call fails with a 500. -/
def witnessItems : List ActionItem :=
  [{ task := "a", source_feature := "f", priority := 1, project := "p", category := "dev" },
   { task := "b", source_feature := "g", priority := 2, project := "q", category := "dev" }]

/-- Witness outcome oracle for C5: the first item succeeds, the second fails
with `HTTP 500: boom`. -/
def witnessOutcome (it : ActionItem) : ItemOutcome :=
  if it.task == "a" then .ok "t1" else .httpErr 500 "boom"

/-- Witness for C5 on a two-item batch with one failure. -/
theorem submit_tasks_per_item_results_witness :
    ∃ succ results,
      submitTasksRoute witnessItems witnessOutcome = .ok succ results ∧
      results.length = witnessItems.length ∧
      (∀ i (hi : i < witnessItems.length) (hr : i < results.length),
        (results.get ⟨i, hr⟩).item = witnessItems.get ⟨i, hi⟩ ∧
        (results.get ⟨i, hr⟩).success =
          outcomeOk (witnessOutcome (witnessItems.get ⟨i, hi⟩)) ∧
        (∀ s b, witnessOutcome (witnessItems.get ⟨i, hi⟩) = .httpErr s b →
          (results.get ⟨i, hr⟩).error = some ("HTTP " ++ toString s ++ ": " ++ b))) ∧
      (succ = true ↔ ∀ r ∈ results, r.success = true) :=
  submit_tasks_per_item_results witnessItems witnessOutcome (by decide)

/-- C7 counterexample: the release detail page does decide an item's
category at read time by scanning the version string for a leading tag —
the same version text is classified `codex` with the `rust-` tag and
`claude` without it, through the `startsWith` check. -/
theorem release_category_prefix_scan :
    releaseSource ("rust-" ++ "0.42.0") = ReleaseSource.codex ∧
    releaseSource "0.42.0" = ReleaseSource.claude ∧
    isCodex ("rust-" ++ "0.42.0") = true ∧ isCodex "0.42.0" = false := by
  refine ⟨?_, ?_, ?_, ?_⟩ <;> decide

/-- C7 amended: the release detail view derives the category at read time as
a function of the leading-tag scan alone — two versions with the same
`startsWith("rust-")` result are always classified the same way. -/
theorem release_source_determined_by_tag_scan (v w : String)
    (h : isCodex v = isCodex w) : releaseSource v = releaseSource w := by
  unfold releaseSource
  rw [h]

/-- Witness for the amended C7 on two distinct `rust-` versions. -/
theorem release_source_determined_by_tag_scan_witness :
    isCodex "rust-1.0.0" = isCodex "rust-2.0.0" ∧
    releaseSource "rust-1.0.0" = releaseSource "rust-2.0.0" :=
  ⟨by decide, release_source_determined_by_tag_scan "rust-1.0.0" "rust-2.0.0" (by decide)⟩

/-- C8: the relay status ranges over exactly {checking, connected,
disconnected}; it is `checking` before any poll, each poll (scheduled every
30000 ms = 30 s) overwrites it with `connected` exactly when the health
response's `relay_api` field equals `"connected"`, and with `disconnected`
in every other case, including a failed fetch. -/
theorem relay_status_polling :
    relayStatusAfter [] = RelayStatus.checking ∧
    (∀ polls r, relayStatusAfter (polls ++ [r]) = checkRelayStep r) ∧
    (∀ r, checkRelayStep r = RelayStatus.connected ↔ r = some "connected") ∧
    (∀ r, checkRelayStep r = RelayStatus.connected ∨
      checkRelayStep r = RelayStatus.disconnected) ∧
    checkRelayStep none = RelayStatus.disconnected ∧
    relayPollIntervalMs = 30 * 1000 := by
  refine ⟨rfl, ?_, ?_, ?_, rfl, rfl⟩
  · intro polls r
    simp [relayStatusAfter, List.foldl_append]
  · intro r
    cases r with
    | none => simp [checkRelayStep]
    | some v =>
      by_cases hv : v = "connected" <;> simp [checkRelayStep, hv]
  · intro r
    cases r with
    | none => right; rfl
    | some v =>
      by_cases hv : v = "connected" <;> simp [checkRelayStep, hv]
